import Mathlib

/-!
Verification of the creational design-pattern toolkit in
`src/advance_python_learn_resource/design_patterns/intro.py`.

The Python classes are shallowly embedded as Lean definitions.  Python
reference semantics (objects mutated in place, aliased by several
variables) are modelled with a small index-based heap: an object is an
entry of a list, a reference is its index, and in-place mutation is
`List.set`.  Console output is modelled as returned message values.
-/

namespace DP

/-! ## Singleton

`Singleton.__new__` keeps a class-level slot `_instance`; the first call
allocates an instance carrying `_initialized = False`, later calls return
the stored one.  `initialize` sets `data` once; `get_data` returns
`self.data`, which raises an `AttributeError` (the spec's
UninitializedAccess error kind) when `initialize` has never run. -/

/-- State of one `Singleton` instance: the `_initialized` flag and the
`data` attribute (`none` while the attribute has never been assigned).
The payload type is a parameter, as Python stores arbitrary objects. -/
structure SingletonObj (α : Type) where
  initialized : Bool
  data : Option α
deriving Repr, DecidableEq

/-- The instance produced by `Singleton.__new__`: `_initialized = False`,
no `data` attribute yet. -/
def SingletonObj.fresh {α : Type} : SingletonObj α := ⟨false, none⟩

/-- Embeds `Singleton.initialize(self, data)`: assigns `data` and flips the flag
when not yet initialized, otherwise leaves the state alone and prints
a message (returned here as the optional second component). -/
def Singleton.stepInit {α : Type} (d : α) (s : SingletonObj α) :
    SingletonObj α × Option String :=
  if !s.initialized then ({ initialized := true, data := some d }, none)
  else (s, some "Singleton already initialized.")

/-- The error kinds of the toolkit (§7 of the spec).  `get_data` before
initialization raises `AttributeError` in the source; the spec calls this
kind UninitializedAccess. -/
inductive ToolkitErr where
  | uninitializedAccess
deriving Repr, DecidableEq

/-- Embeds `Singleton.get_data(self)`: `return self.data`; reading the missing
attribute fails. -/
def get_data {α : Type} (s : SingletonObj α) : Except ToolkitErr α :=
  match s.data with
  | some d => Except.ok d
  | none => Except.error ToolkitErr.uninitializedAccess

/-- The class-level state backing `Singleton.__new__`: the `_instance`
slot (index of the stored instance, `none` before the first call) and the
list of instances ever constructed for this class. -/
structure ClassSlot (α : Type) where
  instSlot : Option Nat
  allocated : List (SingletonObj α)
deriving Repr, DecidableEq

/-- The class state before any call: `_instance = None`, nothing built. -/
def ClassSlot.start {α : Type} : ClassSlot α := ⟨none, []⟩

/-- Embeds `Singleton.__new__(cls)`: when `cls._instance` is unset, construct a
fresh instance, store it in the slot and return it; otherwise return the
stored instance.  The returned `Nat` is the reference (identity) of the
instance handed back. -/
def Singleton.new {α : Type} (c : ClassSlot α) : ClassSlot α × Nat :=
  match c.instSlot with
  | some i => (c, i)
  | none => (⟨some c.allocated.length, c.allocated ++ [SingletonObj.fresh]⟩,
             c.allocated.length)

/-- Class state after `n` accessor calls starting from `ClassSlot.start`. -/
def newIter (α : Type) : Nat → ClassSlot α
  | 0 => ClassSlot.start
  | n + 1 => (Singleton.new (newIter α n)).1

/-- Reference returned by the `(n+1)`-th accessor call. -/
def callResult (α : Type) (n : Nat) : Nat := (Singleton.new (newIter α n)).2

theorem newIter_succ (α : Type) (n : Nat) :
    newIter α (n + 1) = ⟨some 0, [SingletonObj.fresh]⟩ := by
  induction n with
  | zero => rfl
  | succ m ih =>
      show (Singleton.new (newIter α (m + 1))).1 = _
      rw [ih]
      rfl

theorem callResult_eq_zero (α : Type) (n : Nat) : callResult α n = 0 := by
  cases n with
  | zero => rfl
  | succ m => show (Singleton.new (newIter α (m + 1))).2 = 0; rw [newIter_succ]; rfl

/-- C3: `get_data()` on a singleton instance before `initialize` fails
with the UninitializedAccess error kind; after `initialize(data)` it
returns the stored payload. -/
theorem C3_get_data_before_and_after (α : Type) (d : α) :
    get_data (SingletonObj.fresh : SingletonObj α)
      = Except.error ToolkitErr.uninitializedAccess ∧
    get_data (Singleton.stepInit d SingletonObj.fresh).1 = Except.ok d :=
  ⟨rfl, rfl⟩

/-- C4: for every payload type, any two accessor calls return the same
reference, the first call constructs the instance, and at most one
instance is ever constructed over any number of calls. -/
theorem C4_single_instance (α : Type) (n m : Nat) :
    callResult α n = callResult α m ∧
    (newIter α n).allocated.length ≤ 1 ∧
    (newIter α 1).allocated.length = 1 := by
  refine ⟨by rw [callResult_eq_zero, callResult_eq_zero], ?_, by rw [newIter_succ]; rfl⟩
  cases n with
  | zero => exact Nat.zero_le 1
  | succ m => rw [newIter_succ]; exact Nat.le_refl 1

/-- C5: `initialize` on an already-initialized singleton leaves the state
unchanged and reports already-initialized instead of failing. -/
theorem C5_init_idempotent {α : Type} (s : SingletonObj α) (d : α)
    (h : s.initialized = true) :
    Singleton.stepInit d s = (s, some "Singleton already initialized.") := by
  simp [Singleton.stepInit, h]

theorem C5_init_idempotent_witness :
    ({ initialized := true, data := some 5 } : SingletonObj Int).initialized = true ∧
    Singleton.stepInit (7 : Int) ({ initialized := true, data := some 5 } : SingletonObj Int)
      = ({ initialized := true, data := some 5 }, some "Singleton already initialized.") :=
  ⟨rfl, C5_init_idempotent ({ initialized := true, data := some 5 } : SingletonObj Int) (7 : Int) rfl⟩

/-! ## ShapeFactory

`ShapeFactory.create_shape` lower-cases the tag and dispatches on it;
an unknown tag prints a notice and returns `None`. -/

/-- The closed set of concrete `Shape` subclasses. -/
inductive ShapeV where
  | circle
  | square
deriving Repr, DecidableEq

/-- Python's `str.lower()` restricted to ASCII, which is all the source
and its tags use. -/
def pyLowerChar (c : Char) : Char :=
  if 65 ≤ c.toNat ∧ c.toNat ≤ 90 then Char.ofNat (c.toNat + 32) else c

/-- Lower-case a whole string, character by character. -/
def pyLower (s : String) : String := ⟨s.data.map pyLowerChar⟩

/-- A single-quote character, used by the factory's diagnostic text. -/
def singleQuote : String := String.singleton (Char.ofNat 39)

/-- Embeds `ShapeFactory.create_shape(shape_type)`: case-insensitive
dispatch over the registered tags; an unrecognized tag yields no shape
plus the printed diagnostic line (second component). -/
def create_shape (shape_type : String) : Option ShapeV × List String :=
  if pyLower shape_type = "circle" then (some ShapeV.circle, [])
  else if pyLower shape_type = "square" then (some ShapeV.square, [])
  else (none,
    ["Shape type " ++ singleQuote ++ shape_type ++ singleQuote ++ " not recognized."])

/-- C6: `create_shape` matches case-insensitively — both "Circle" and
"circle" give the Circle variant — and any tag whose lower-casing is
neither registered tag gives an absent result with a diagnostic notice
rather than an exception. -/
theorem C6_create_shape_cases :
    create_shape "Circle" = (some ShapeV.circle, []) ∧
    create_shape "circle" = (some ShapeV.circle, []) ∧
    ∀ s : String, pyLower s ≠ "circle" → pyLower s ≠ "square" →
      create_shape s = (none,
        ["Shape type " ++ singleQuote ++ s ++ singleQuote ++ " not recognized."]) := by
  refine ⟨by decide, by decide, ?_⟩
  intro s h1 h2
  simp [create_shape, h1, h2]

theorem C6_create_shape_cases_witness :
    pyLower "triangle" ≠ "circle" ∧ pyLower "triangle" ≠ "square" ∧
    create_shape "triangle" = (none,
      ["Shape type " ++ singleQuote ++ "triangle" ++ singleQuote ++ " not recognized."]) :=
  ⟨by decide, by decide, C6_create_shape_cases.2.2 "triangle" (by decide) (by decide)⟩

/-! ## Abstract GUI factory

Each concrete `GUIFactory` builds the button and text box of its own
platform; `render`/`display` describe the widget including the platform
name. -/

/-- The concrete `Button` subclasses. -/
inductive ButtonV where
  | windowsButton
  | macButton
deriving Repr, DecidableEq

/-- The concrete `TextBox` subclasses. -/
inductive TextBoxV where
  | windowsTextBox
  | macTextBox
deriving Repr, DecidableEq

/-- The concrete `GUIFactory` subclasses. -/
inductive GUIFactoryV where
  | windowsGUIFactory
  | macGUIFactory
deriving Repr, DecidableEq

/-- Embeds `create_button` of each concrete factory. -/
def create_button : GUIFactoryV → ButtonV
  | GUIFactoryV.windowsGUIFactory => ButtonV.windowsButton
  | GUIFactoryV.macGUIFactory => ButtonV.macButton

/-- Embeds `create_textbox` of each concrete factory. -/
def create_textbox : GUIFactoryV → TextBoxV
  | GUIFactoryV.windowsGUIFactory => TextBoxV.windowsTextBox
  | GUIFactoryV.macGUIFactory => TextBoxV.macTextBox

/-- Embeds `Button.render` of each concrete button. -/
def render : ButtonV → String
  | ButtonV.windowsButton => "Rendering a Windows button"
  | ButtonV.macButton => "Rendering a Mac button"

/-- Embeds `TextBox.display` of each concrete text box. -/
def display : TextBoxV → String
  | TextBoxV.windowsTextBox => "Displaying a Windows text box"
  | TextBoxV.macTextBox => "Displaying a Mac text box"

/-- Does the first character list start the second one? -/
def startsWithL : List Char → List Char → Bool
  | [], _ => true
  | _ :: _, [] => false
  | a :: as, b :: bs => a = b && startsWithL as bs

/-- Does `sub` occur contiguously inside `s`? -/
def occursWithin (sub : List Char) : List Char → Bool
  | [] => startsWithL sub []
  | c :: rest => startsWithL sub (c :: rest) || occursWithin sub rest

/-- Whether the description string `s` mentions the platform word `sub`. -/
def mentions (s sub : String) : Bool := occursWithin sub.data s.data

/-- Platform name a factory belongs to. -/
def platformName : GUIFactoryV → String
  | GUIFactoryV.windowsGUIFactory => "Windows"
  | GUIFactoryV.macGUIFactory => "Mac"

/-- The name of the other platform. -/
def otherPlatform : GUIFactoryV → String
  | GUIFactoryV.windowsGUIFactory => "Mac"
  | GUIFactoryV.macGUIFactory => "Windows"

/-! ## PizzaBuilder

`Pizza` is a mutable record; `PizzaBuilder.__init__` allocates one and
every step mutates it in place, returning `self`.  `build` returns
`self.pizza` — a reference to that same object, not a copy.  Aliasing is
modelled with a heap of `Pizza` objects indexed by `Nat` references.

Python is dynamically typed: `add_cheese` appends whatever argument it
receives, and the preset builders pass a list literal where the chained
demo passes a single string, so a cheese-list element is either kind. -/

/-- An element of the `cheese` list: a plain string, or a whole list of
strings when a caller passes a list literal to `add_cheese`. -/
inductive CheeseEntry where
  | str (s : String)
  | strList (l : List String)
deriving Repr, DecidableEq

/-- Embeds the `Pizza` record: `Pizza.__init__` gives every field its
empty value. -/
structure Pizza where
  dough : Option String
  sauce : Option String
  cheese : List CheeseEntry
  toppings : List String
deriving Repr, DecidableEq

/-- The record `Pizza.__init__` produces. -/
def Pizza.fresh : Pizza := ⟨none, none, [], []⟩

/-- Heap of allocated `Pizza` objects; a reference is an index. -/
structure World where
  heap : List Pizza
deriving Repr, DecidableEq

/-- The world before any allocation. -/
def World.start : World := ⟨[]⟩

/-- Dereference a pizza object. -/
def readObj (w : World) (r : Nat) : Pizza := w.heap.getD r Pizza.fresh

/-- Overwrite a pizza object in place. -/
def writeObj (w : World) (r : Nat) (p : Pizza) : World := ⟨w.heap.set r p⟩

/-- A builder value: `self.pizza` is a reference into the heap. -/
structure PizzaBuilder where
  pizzaRef : Nat
deriving Repr, DecidableEq

/-- Embeds `PizzaBuilder.__init__`: allocate a fresh `Pizza` and keep a
reference to it. -/
def PizzaBuilder.new (w : World) : World × PizzaBuilder :=
  (⟨w.heap ++ [Pizza.fresh]⟩, ⟨w.heap.length⟩)

/-- Embeds `add_dough`: set `self.pizza.dough` in place, return `self`. -/
def add_dough (w : World) (b : PizzaBuilder) (dough : String) : World × PizzaBuilder :=
  (writeObj w b.pizzaRef { readObj w b.pizzaRef with dough := some dough }, b)

/-- Embeds `add_sauce`: set `self.pizza.sauce` in place, return `self`. -/
def add_sauce (w : World) (b : PizzaBuilder) (sauce : String) : World × PizzaBuilder :=
  (writeObj w b.pizzaRef { readObj w b.pizzaRef with sauce := some sauce }, b)

/-- Embeds `add_cheese`: append the argument, whatever it is, to
`self.pizza.cheese`; return `self`. -/
def add_cheese (w : World) (b : PizzaBuilder) (cheese : CheeseEntry) : World × PizzaBuilder :=
  (writeObj w b.pizzaRef
    { readObj w b.pizzaRef with cheese := (readObj w b.pizzaRef).cheese ++ [cheese] }, b)

/-- Embeds `add_topping`: append one topping to `self.pizza.toppings`;
return `self`. -/
def add_topping (w : World) (b : PizzaBuilder) (topping : String) : World × PizzaBuilder :=
  (writeObj w b.pizzaRef
    { readObj w b.pizzaRef with toppings := (readObj w b.pizzaRef).toppings ++ [topping] }, b)

/-- Embeds `VeggiePizzaBuilder.add_veggies`: extend `toppings` with a
list; return `self`. -/
def add_veggies (w : World) (b : PizzaBuilder) (veggies : List String) : World × PizzaBuilder :=
  (writeObj w b.pizzaRef
    { readObj w b.pizzaRef with toppings := (readObj w b.pizzaRef).toppings ++ veggies }, b)

/-- Embeds `MeatLoversPizzaBuilder.add_meats`: extend `toppings` with a
list; return `self`. -/
def add_meats (w : World) (b : PizzaBuilder) (meats : List String) : World × PizzaBuilder :=
  (writeObj w b.pizzaRef
    { readObj w b.pizzaRef with toppings := (readObj w b.pizzaRef).toppings ++ meats }, b)

/-- Embeds `build`: return `self.pizza` — the reference the builder owns,
not a copy of the record. -/
def build (w : World) (b : PizzaBuilder) : World × Nat := (w, b.pizzaRef)

/-- Embeds `VeggiePizzaBuilder.__init__`: the base constructor, then
`add_dough("Thin crust")`, `add_sauce("Marinara")` and — as written in
the source — `add_cheese(["Mozzarella"])` with a list literal argument. -/
def VeggiePizzaBuilder.new (w : World) : World × PizzaBuilder :=
  let s0 := PizzaBuilder.new w
  let s1 := add_dough s0.1 s0.2 "Thin crust"
  let s2 := add_sauce s1.1 s1.2 "Marinara"
  add_cheese s2.1 s2.2 (CheeseEntry.strList ["Mozzarella"])

/-- Embeds `MeatLoversPizzaBuilder.__init__` likewise, with
`add_cheese(["Mozzarella", "Cheddar"])`. -/
def MeatLoversPizzaBuilder.new (w : World) : World × PizzaBuilder :=
  let s0 := PizzaBuilder.new w
  let s1 := add_dough s0.1 s0.2 "Thick crust"
  let s2 := add_sauce s1.1 s1.2 "Tomato"
  add_cheese s2.1 s2.2 (CheeseEntry.strList ["Mozzarella", "Cheddar"])

/-- One builder step, covering every mutation method of the hierarchy. -/
inductive Step where
  | dough (s : String)
  | sauce (s : String)
  | cheese (c : CheeseEntry)
  | topping (t : String)
  | veggies (l : List String)
  | meats (l : List String)
deriving Repr, DecidableEq

/-- Run one builder step. -/
def applyStep (w : World) (b : PizzaBuilder) : Step → World × PizzaBuilder
  | Step.dough s => add_dough w b s
  | Step.sauce s => add_sauce w b s
  | Step.cheese c => add_cheese w b c
  | Step.topping t => add_topping w b t
  | Step.veggies l => add_veggies w b l
  | Step.meats l => add_meats w b l

/-- The effect of one step on the pizza record it mutates. -/
def stepOnPizza (p : Pizza) : Step → Pizza
  | Step.dough s => { p with dough := some s }
  | Step.sauce s => { p with sauce := some s }
  | Step.cheese c => { p with cheese := p.cheese ++ [c] }
  | Step.topping t => { p with toppings := p.toppings ++ [t] }
  | Step.veggies l => { p with toppings := p.toppings ++ l }
  | Step.meats l => { p with toppings := p.toppings ++ l }

theorem getD_set_self {α : Type} (l : List α) (r : Nat) (p d : α)
    (h : r < l.length) : (l.set r p).getD r d = p := by
  induction l generalizing r with
  | nil => simp at h
  | cons a t ih =>
      cases r with
      | zero => rfl
      | succ n => simpa using ih n (by simpa using h)

theorem readObj_writeObj (w : World) (r : Nat) (p : Pizza)
    (h : r < w.heap.length) : readObj (writeObj w r p) r = p :=
  getD_set_self w.heap r p Pizza.fresh h

/-- C2 counterexample: a fresh builder, `build()`, then one more
`add_topping` — the previously built pizza's fields change, because
`build` returned the builder's own mutable record. -/
theorem C2_counterexample :
    readObj (add_topping (build (PizzaBuilder.new World.start).1
        (PizzaBuilder.new World.start).2).1
        (PizzaBuilder.new World.start).2 "Olives").1
      (build (PizzaBuilder.new World.start).1 (PizzaBuilder.new World.start).2).2
    ≠ readObj (build (PizzaBuilder.new World.start).1
        (PizzaBuilder.new World.start).2).1
      (build (PizzaBuilder.new World.start).1 (PizzaBuilder.new World.start).2).2 := by
  decide

/-- C2 (amended): `build()` returns the builder's own pizza object, so a
further builder step updates the previously built record in place — the
built pizza observed after the step is exactly the step applied to it. -/
theorem C2_built_pizza_aliased (w : World) (b : PizzaBuilder) (st : Step)
    (h : b.pizzaRef < w.heap.length) :
    readObj (applyStep w b st).1 (build w b).2
      = stepOnPizza (readObj w (build w b).2) st := by
  cases st <;> exact readObj_writeObj w b.pizzaRef _ h

theorem C2_built_pizza_aliased_witness :
    (⟨0⟩ : PizzaBuilder).pizzaRef < (⟨[Pizza.fresh]⟩ : World).heap.length ∧
    readObj (applyStep ⟨[Pizza.fresh]⟩ ⟨0⟩ (Step.topping "Olives")).1
        (build ⟨[Pizza.fresh]⟩ ⟨0⟩).2
      = stepOnPizza (readObj ⟨[Pizza.fresh]⟩ (build ⟨[Pizza.fresh]⟩ ⟨0⟩).2)
          (Step.topping "Olives") :=
  ⟨by decide, C2_built_pizza_aliased ⟨[Pizza.fresh]⟩ ⟨0⟩ (Step.topping "Olives") (by decide)⟩

/-- C8: the chained build from a fresh `PizzaBuilder` yields the claimed
record, and every step returns the very same builder. -/
theorem C8_chained_build :
    (add_dough (PizzaBuilder.new World.start).1 (PizzaBuilder.new World.start).2 "Thin").2
      = (PizzaBuilder.new World.start).2 ∧
    (let s0 := PizzaBuilder.new World.start
     let s1 := add_dough s0.1 s0.2 "Thin"
     let s2 := add_sauce s1.1 s1.2 "Marinara"
     let s3 := add_cheese s2.1 s2.2 (CheeseEntry.str "Mozzarella")
     let s4 := add_topping s3.1 s3.2 "Olives"
     s1.2 = s0.2 ∧ s2.2 = s0.2 ∧ s3.2 = s0.2 ∧ s4.2 = s0.2 ∧
       readObj (build s4.1 s4.2).1 (build s4.1 s4.2).2
         = { dough := some "Thin", sauce := some "Marinara",
             cheese := [CheeseEntry.str "Mozzarella"], toppings := ["Olives"] }) := by
  exact ⟨rfl, rfl, rfl, rfl, rfl, by decide⟩

/-- C1: evaluating `VeggiePizzaBuilder().add_veggies(["Pepper","Onion"]).build()`
as the source writes it.  Dough, sauce and toppings come out as the claim
says, but `add_cheese(["Mozzarella"])` appended the list itself, so the
cheese list holds one nested-list entry, not the string "Mozzarella". -/
theorem C1_veggie_build_eval :
    readObj (build (add_veggies (VeggiePizzaBuilder.new World.start).1
        (VeggiePizzaBuilder.new World.start).2 ["Pepper", "Onion"]).1
        (VeggiePizzaBuilder.new World.start).2).1
      (build (add_veggies (VeggiePizzaBuilder.new World.start).1
        (VeggiePizzaBuilder.new World.start).2 ["Pepper", "Onion"]).1
        (VeggiePizzaBuilder.new World.start).2).2
      = { dough := some "Thin crust", sauce := some "Marinara",
          cheese := [CheeseEntry.strList ["Mozzarella"]],
          toppings := ["Pepper", "Onion"] } ∧
    [CheeseEntry.strList ["Mozzarella"]] ≠ [CheeseEntry.str "Mozzarella"] := by
  exact ⟨by decide, by decide⟩

/-- C7: each concrete factory's button and text box both report the
factory's own platform in their render/display descriptions and never
the other platform, so a single factory never yields a mixed pair. -/
theorem C7_factory_platform_consistent (f : GUIFactoryV) :
    mentions (render (create_button f)) (platformName f) = true ∧
    mentions (display (create_textbox f)) (platformName f) = true ∧
    mentions (render (create_button f)) (otherPlatform f) = false ∧
    mentions (display (create_textbox f)) (otherPlatform f) = false := by
  cases f <;> exact ⟨by decide, by decide, by decide, by decide⟩

/-! ## Prototype

`Prototype.clone` returns `copy.copy(self)`: a brand new object of the
same class whose attributes equal the original's at that moment.  As for
the builder, object identity is modelled with a heap of prototype
objects indexed by `Nat` references. -/

/-- A concrete prototype object: `ConcretePrototype1` carries `data`,
`ConcretePrototype2` carries `value`. -/
inductive ProtoObj where
  | prototype1 (data : Int)
  | prototype2 (value : Int)
deriving Repr, DecidableEq

/-- Heap of allocated prototype objects. -/
abbrev ProtoHeap := List ProtoObj

/-- Dereference a prototype object. -/
def readProto (h : ProtoHeap) (r : Nat) : ProtoObj := h.getD r (ProtoObj.prototype1 0)

/-- Embeds `Prototype.clone`: `copy.copy(self)` allocates a new object of
the same class with the same attribute values and returns its reference. -/
def clone (h : ProtoHeap) (r : Nat) : ProtoHeap × Nat :=
  (h ++ [readProto h r], h.length)

/-- Reassign the object's scalar attribute (`data` for
`ConcretePrototype1`, `value` for `ConcretePrototype2`) in place. -/
def setScalar (h : ProtoHeap) (r : Nat) (v : Int) : ProtoHeap :=
  h.set r (match readProto h r with
    | ProtoObj.prototype1 _ => ProtoObj.prototype1 v
    | ProtoObj.prototype2 _ => ProtoObj.prototype2 v)

/-- Embeds `ConcretePrototype1.operation`, absent on the other class. -/
def operation : ProtoObj → Option String
  | ProtoObj.prototype1 d => some ("ConcretePrototype1 with data: " ++ toString d)
  | ProtoObj.prototype2 _ => none

/-- Embeds `ConcretePrototype2.process`, absent on the other class. -/
def process : ProtoObj → Option String
  | ProtoObj.prototype1 _ => none
  | ProtoObj.prototype2 v => some ("ConcretePrototype2 processing value: " ++ toString v)

/-- The dynamic class of a prototype object. -/
def protoClass : ProtoObj → String
  | ProtoObj.prototype1 _ => "ConcretePrototype1"
  | ProtoObj.prototype2 _ => "ConcretePrototype2"

theorem getD_append_right_self {α : Type} (l : List α) (x d : α) :
    (l ++ [x]).getD l.length d = x := by
  induction l with
  | nil => rfl
  | cons a t ih => simp [ih]

theorem getD_append_left {α : Type} (l m : List α) (r : Nat) (d : α)
    (h : r < l.length) : (l ++ m).getD r d = l.getD r d := by
  induction l generalizing r with
  | nil => simp at h
  | cons a t ih =>
      cases r with
      | zero => rfl
      | succ n => simpa using ih n (by simpa using h)

theorem getD_set_ne {α : Type} (l : List α) (i r : Nat) (x d : α)
    (h : i ≠ r) : (l.set i x).getD r d = l.getD r d := by
  induction l generalizing i r with
  | nil => rfl
  | cons a t ih =>
      cases i with
      | zero => cases r with
        | zero => exact absurd rfl h
        | succ n => rfl
      | succ j => cases r with
        | zero => rfl
        | succ n => simpa using ih j n (fun e => h (by rw [e]))

theorem clone_read (h : ProtoHeap) (r : Nat) :
    readProto (clone h r).1 (clone h r).2 = readProto h r :=
  getD_append_right_self h (readProto h r) (ProtoObj.prototype1 0)

theorem clone_read_old (h : ProtoHeap) (r : Nat) (hr : r < h.length) :
    readProto (clone h r).1 r = readProto h r :=
  getD_append_left h [readProto h r] r (ProtoObj.prototype1 0) hr

/-- C9: `clone` hands back a different reference whose object equals the
original at the moment of cloning, and reassigning the clone's scalar
attribute leaves the original object untouched. -/
theorem C9_clone_independent (h : ProtoHeap) (r : Nat) (hr : r < h.length) :
    (clone h r).2 ≠ r ∧
    readProto (clone h r).1 (clone h r).2 = readProto h r ∧
    ∀ v : Int, readProto (setScalar (clone h r).1 (clone h r).2 v) r = readProto h r := by
  refine ⟨Nat.ne_of_gt hr, clone_read h r, ?_⟩
  intro v
  show ((h ++ [readProto h r]).set h.length _).getD r _ = _
  rw [getD_set_ne _ h.length r _ _ (Nat.ne_of_gt hr)]
  exact clone_read_old h r hr

theorem C9_clone_independent_witness :
    0 < ([ProtoObj.prototype1 5] : ProtoHeap).length ∧
    readProto (setScalar (clone [ProtoObj.prototype1 5] 0).1
        (clone [ProtoObj.prototype1 5] 0).2 10) 0 = ProtoObj.prototype1 5 :=
  ⟨by decide, (C9_clone_independent [ProtoObj.prototype1 5] 0 (by decide)).2.2 10⟩

/-- C10: `clone` preserves the dynamic class, so `operation` on the clone
of a `ConcretePrototype1` is available and returns the original's string,
and likewise `process` for `ConcretePrototype2`. -/
theorem C10_clone_preserves_class (h : ProtoHeap) (r : Nat) (_hr : r < h.length) :
    protoClass (readProto (clone h r).1 (clone h r).2) = protoClass (readProto h r) ∧
    operation (readProto (clone h r).1 (clone h r).2) = operation (readProto h r) ∧
    process (readProto (clone h r).1 (clone h r).2) = process (readProto h r) := by
  rw [clone_read h r]
  exact ⟨rfl, rfl, rfl⟩

theorem C10_clone_preserves_class_witness :
    (0 < ([ProtoObj.prototype1 5, ProtoObj.prototype2 7] : ProtoHeap).length ∧
      operation (readProto (clone [ProtoObj.prototype1 5, ProtoObj.prototype2 7] 0).1
          (clone [ProtoObj.prototype1 5, ProtoObj.prototype2 7] 0).2)
        = operation (readProto [ProtoObj.prototype1 5, ProtoObj.prototype2 7] 0)) ∧
    (1 < ([ProtoObj.prototype1 5, ProtoObj.prototype2 7] : ProtoHeap).length ∧
      process (readProto (clone [ProtoObj.prototype1 5, ProtoObj.prototype2 7] 1).1
          (clone [ProtoObj.prototype1 5, ProtoObj.prototype2 7] 1).2)
        = process (readProto [ProtoObj.prototype1 5, ProtoObj.prototype2 7] 1)) :=
  ⟨⟨by decide,
    (C10_clone_preserves_class [ProtoObj.prototype1 5, ProtoObj.prototype2 7] 0 (by decide)).2.1⟩,
   ⟨by decide,
    (C10_clone_preserves_class [ProtoObj.prototype1 5, ProtoObj.prototype2 7] 1 (by decide)).2.2⟩⟩

end DP
